import Mathlib

/-!
Verification development for the disease-spread simulator (sim_disease).

The Python sources are shallowly embedded:
  * `src/src/simulation.py` (`Simulation.__init__`, `run`, `step`,
    `record_stats`) as `SimDisease.Simulation.*` over an explicit
    `SimState`;
  * `src/src/models/independent.py`, `dependent.py`, `superspreader.py`
    as the functions in the `Independent`, `Dependent`, `Superspreader`
    namespaces;
  * node/edge attribute stamping of `src/src/graph_setup.py`
    (lines 59-76) as `create_population_graph`, with the networkx
    topology generators and the random attribute sampling supplied as
    inputs (they are external collaborators per the spec).

Probabilities and node attributes are rationals (Python floats are
rationals); the random draws of `np.random.rand`, `random.random` and
`np.random.binomial` are passed in as explicit streams, one value per
call in the source's call order.  Python's `math.exp` is modelled for
the simulation engine as an abstract `expQ : ℚ → Option ℚ` (`none` is
an `OverflowError`), and for the two claims that are about the sigmoid
itself as `Dependent.pyExp` over ℝ using `Real.exp`, with `none`
exactly above the IEEE-double overflow threshold.
-/

namespace SimDisease

/-- The `infection_state` node attribute: the only values the source ever
writes are the strings `susceptible`, `infected` and `recovered`. -/
inductive InfState where
  | susceptible
  | infected
  | recovered
deriving DecidableEq

/-- Per-node attributes stamped by `graph_setup.create_population_graph` and
mutated by `Simulation.step`.  `days_infected` is absent until first touched
in Python and `data.get('days_infected', 0)` defaults it to `0`, so it is
modelled as a `ℕ` starting at `0`. -/
structure NodeData where
  infection_state : InfState
  immune_level : ℚ
  vaccine_effectiveness : ℚ
  days_infected : ℕ
deriving DecidableEq

/-- The networkx population graph: node ids in iteration order, a neighbor
function, and the per-node attribute map. -/
structure Graph where
  nodes : List ℕ
  adj : ℕ → List ℕ
  data : ℕ → NodeData

/-- `config['infection_model']['infection_parameters']`: every key is read
with `.get(key, default)` in the source, so every field is an `Option`. -/
structure InfectionParams where
  base_prob_transmission : Option ℚ
  alpha : Option ℚ
  beta : Option ℚ
  p_becomes_superspreader : Option ℚ
  normal_base_infectivity : Option ℚ
  superspreader_multiplier : Option ℚ

/-- `{}` for `infection_parameters`. -/
def emptyParams : InfectionParams := ⟨none, none, none, none, none, none⟩

/-- `config['infection_model']`: `type`, `recovery_duration` and
`infection_parameters` are all read with `.get`. -/
structure InfectionModelConfig where
  type : Option String
  recovery_duration : Option ℕ
  infection_parameters : Option InfectionParams

/-- `{}` for `infection_model`. -/
def emptyModelConfig : InfectionModelConfig := ⟨none, none, none⟩

/-- The part of the validated configuration dictionary the simulation core
reads: `number_of_days` and the `infection_model` sub-object. -/
structure SimConfig where
  number_of_days : ℕ
  infection_model : Option InfectionModelConfig

/-- `config.get('infection_model', {})` as read in `Simulation.step` and in
every model module. -/
def SimConfig.modelConfig (cfg : SimConfig) : InfectionModelConfig :=
  cfg.infection_model.getD emptyModelConfig

/-- `config.get('infection_model', {}).get('infection_parameters', {})`. -/
def SimConfig.params (cfg : SimConfig) : InfectionParams :=
  cfg.modelConfig.infection_parameters.getD emptyParams

/-- `model_config.get('type', 'independent')` in `Simulation.step`. -/
def SimConfig.modelType (cfg : SimConfig) : String :=
  cfg.modelConfig.type.getD "independent"

/-- `model_config.get('recovery_duration', 14)` in `Simulation.step`. -/
def recoveryDurationOf (cfg : SimConfig) : ℕ :=
  cfg.modelConfig.recovery_duration.getD 14

/-- `max(0.0, min(1.0, x))`, the clamp every model applies. -/
def clamp01 (x : ℚ) : ℚ := max 0 (min 1 x)

namespace Independent

/-- `models/independent.py  calculate_probability` (lines 4-38): each
infected neighbor contributes `base_prob_transmission` scaled by the
susceptible node's defenses and clamped; the contributions are combined as
`1 - Π (1 - p_i)` and the result clamped again. -/
def calculate_probability (g : Graph) (s : ℕ) (cfg : SimConfig) : ℚ :=
  let imm := (g.data s).immune_level
  let vac := (g.data s).vaccine_effectiveness
  let base := (SimConfig.params cfg).base_prob_transmission.getD (1/20)
  let probNot := (g.adj s).foldl
    (fun acc m =>
      if (g.data m).infection_state = InfState.infected then
        acc * (1 - clamp01 (base * (1 - imm) * (1 - vac)))
      else acc) 1
  clamp01 (1 - probNot)

end Independent

/-- The count of infected neighbors of `s`, as accumulated by the loop of
`models/dependent.py` lines 33-36. -/
def infectedNeighborCount (g : Graph) (s : ℕ) : ℕ :=
  ((g.adj s).filter
    (fun m => decide ((g.data m).infection_state = InfState.infected))).length

namespace Dependent

/-- `models/dependent.py  calculate_probability` (lines 17-53) with Python's
`math.exp` supplied abstractly as `expQ` (`none` models `OverflowError`, in
which case the code saturates: `0.0 if exponent_val > 0 else 1.0`).  Note
the source defaults `alpha` to `0.1` but `beta` to `3`. -/
def calculate_probabilityQ (expQ : ℚ → Option ℚ) (g : Graph) (s : ℕ)
    (cfg : SimConfig) : ℚ :=
  let imm := (g.data s).immune_level
  let vac := (g.data s).vaccine_effectiveness
  let alpha := (SimConfig.params cfg).alpha.getD (1/10)
  let beta := (SimConfig.params cfg).beta.getD 3
  let e := -alpha * (infectedNeighborCount g s : ℚ) + beta
  let sigmoid :=
    match expQ e with
    | some v => 1 / (1 + v)
    | none => if 0 < e then 0 else 1
  clamp01 (sigmoid * (1 - imm) * (1 - vac))

/-- `math.exp` on an IEEE double raises `OverflowError` exactly when the
result exceeds the largest double, i.e. for arguments above
`ln(DBL_MAX) = 709.782712893384…`. -/
def pyExpOverflowBound : ℝ := 709.782712893384

/-- Python's `math.exp` over the reals: `none` is an `OverflowError`. -/
noncomputable def pyExp (x : ℝ) : Option ℝ :=
  if x ≤ pyExpOverflowBound then some (Real.exp x) else none

/-- `sigmoid_prob` as computed by the `try/except OverflowError` block of
`models/dependent.py` (lines 45-50). -/
noncomputable def sigmoidOfExponent (e : ℝ) : ℝ :=
  match pyExp e with
  | some v => 1 / (1 + v)
  | none => if 0 < e then 0 else 1

/-- `max(0.0, min(1.0, x))` over ℝ. -/
def clamp01R (x : ℝ) : ℝ := max 0 (min 1 x)

/-- The exponent `-alpha * k + beta` of `models/dependent.py` line 43, with
the source's defaults `alpha = 0.1`, `beta = 3`. -/
def exponentVal (g : Graph) (s : ℕ) (cfg : SimConfig) : ℝ :=
  let alpha : ℝ := ((SimConfig.params cfg).alpha.getD (1/10) : ℚ)
  let beta : ℝ := ((SimConfig.params cfg).beta.getD 3 : ℚ)
  let e := -alpha * (infectedNeighborCount g s : ℝ) + beta
  e

/-- `models/dependent.py  calculate_probability` over the reals, with
`math.exp` modelled by `pyExp`. -/
noncomputable def calculate_probabilityR (g : Graph) (s : ℕ)
    (cfg : SimConfig) : ℝ :=
  let imm : ℝ := ((g.data s).immune_level : ℚ)
  let vac : ℝ := ((g.data s).vaccine_effectiveness : ℚ)
  clamp01R (sigmoidOfExponent (exponentVal g s cfg) * (1 - imm) * (1 - vac))

end Dependent

namespace Superspreader

/-- The infected nodes in `graph.nodes` iteration order, as walked by the
loop of `determine_daily_status` (superspreader.py lines 57-62). -/
def infectedNodes (g : Graph) : List ℕ :=
  g.nodes.filter
    (fun i => decide ((g.data i).infection_state = InfState.infected))

/-- `infection_params.get('p_becomes_superspreader', 0.01)`. -/
def pBecomesSuperspreader (cfg : SimConfig) : ℚ :=
  (SimConfig.params cfg).p_becomes_superspreader.getD (1/100)

/-- `models/superspreader.py  determine_daily_status` (lines 25-64): if
`current_day == last_status_update_day` the cached map is returned as is;
otherwise one `random.random()` draw is consumed per currently infected node
(in node order; `rand i` is the draw for the i-th infected node) and the new
map together with `current_day` is returned. -/
def determine_daily_status (g : Graph) (cfg : SimConfig)
    (current_day last_status_update_day : ℤ)
    (existing_status : List (ℕ × Bool)) (rand : ℕ → ℚ) :
    List (ℕ × Bool) × ℤ :=
  if current_day = last_status_update_day then
    (existing_status, last_status_update_day)
  else
    let p := pBecomesSuperspreader cfg
    ((infectedNodes g).enum.map (fun q => (q.2, decide (rand q.1 < p))),
      current_day)

/-- `models/superspreader.py  calculate_probability` (lines 66-105): like the
independent model, but an infected neighbor flagged in
`daily_superspreader_status` has its base infectivity multiplied by
`superspreader_multiplier`. -/
def calculate_probability (g : Graph) (s : ℕ) (cfg : SimConfig)
    (dss : List (ℕ × Bool)) : ℚ :=
  let imm := (g.data s).immune_level
  let vac := (g.data s).vaccine_effectiveness
  let nbi := (SimConfig.params cfg).normal_base_infectivity.getD (1/20)
  let mult := (SimConfig.params cfg).superspreader_multiplier.getD 10
  let probNot := (g.adj s).foldl
    (fun acc m =>
      if (g.data m).infection_state = InfState.infected then
        let base := if (dss.lookup m).getD false then nbi * mult else nbi
        acc * (1 - clamp01 (base * (1 - imm) * (1 - vac)))
      else acc) 1
  clamp01 (1 - probNot)

end Superspreader

/-! ## The simulation engine (`src/src/simulation.py`) -/

/-- The daily per-simulation counts dictionary `self.results`. -/
structure SimResults where
  day : List ℕ
  susceptible : List ℕ
  infected : List ℕ
  recovered : List ℕ
  newly_infected_today : List ℕ

/-- The mutable state of a `Simulation` object: the graph, `current_day`,
`results`, and the superspreader daily-status cache. -/
structure SimState where
  graph : Graph
  current_day : ℕ
  results : SimResults
  daily_superspreader_status : List (ℕ × Bool)
  last_superspreader_status_update_day : ℤ

/-- The count of nodes whose `infection_state` is `s`, as tallied by the
loop of `Simulation.record_stats` (simulation.py lines 145-152). -/
def countState (g : Graph) (s : InfState) : ℕ :=
  (g.nodes.filter (fun i => decide ((g.data i).infection_state = s))).length

/-- `Simulation.record_stats` (lines 140-157): append `current_day` and the
three state counts to `results`. -/
def record_stats (st : SimState) : SimState :=
  { st with results :=
    { st.results with
      day := st.results.day ++ [st.current_day],
      susceptible :=
        st.results.susceptible ++ [countState st.graph InfState.susceptible],
      infected :=
        st.results.infected ++ [countState st.graph InfState.infected],
      recovered :=
        st.results.recovered ++ [countState st.graph InfState.recovered] } }

/-- The `susceptible_nodes` list collected by the first loop of
`Simulation.step` (lines 87-90), in node order. -/
def susceptibleNodes (g : Graph) : List ℕ :=
  g.nodes.filter
    (fun i => decide ((g.data i).infection_state = InfState.susceptible))

/-- `newly_recovered_today` (lines 91-96): the infected nodes whose
incremented `days_infected` reaches `recovery_duration`. -/
def recoveredToday (g : Graph) (rd : ℕ) : List ℕ :=
  g.nodes.filter
    (fun i => decide ((g.data i).infection_state = InfState.infected ∧
      rd ≤ (g.data i).days_infected + 1))

/-- The `days_infected` increment the same loop performs on every infected
node (line 93); it never touches `infection_state`. -/
def incrementDays (g : Graph) : Graph :=
  { g with data := fun i =>
      let d := g.data i
      if d.infection_state = InfState.infected then
        { d with days_infected := d.days_infected + 1 }
      else d }

/-- `has_infected_neighbor` of `Simulation.step` (lines 100-103). -/
def hasInfectedNeighbor (g : Graph) (s : ℕ) : Bool :=
  (g.adj s).any
    (fun m => decide ((g.data m).infection_state = InfState.infected))

/-- The model dispatch of `Simulation.step` (lines 106-123): the three known
model types call their modules; anything else logs a warning and falls back
to the independent model. -/
def dispatchProb (expQ : ℚ → Option ℚ) (cfg : SimConfig) (mt : String)
    (dss : List (ℕ × Bool)) (g : Graph) (s : ℕ) : ℚ :=
  if mt = "independent" then Independent.calculate_probability g s cfg
  else if mt = "dependent" then Dependent.calculate_probabilityQ expQ g s cfg
  else if mt = "superspreader_dynamic" then
    Superspreader.calculate_probability g s cfg dss
  else Independent.calculate_probability g s cfg

/-- The infection pass of `Simulation.step` (lines 98-126): for the i-th
entry of `susceptible_nodes` one `np.random.rand()` draw `infRand i` is
consumed (the source draws even when the probability is `0.0`), and the node
joins `newly_infected_today` when the draw is below its probability. -/
def infectionPass (expQ : ℚ → Option ℚ) (cfg : SimConfig) (mt : String)
    (dss : List (ℕ × Bool)) (g : Graph) (sus : List ℕ)
    (infRand : ℕ → ℚ) : List ℕ :=
  (sus.enum.filter (fun p =>
    let prob := if hasInfectedNeighbor g p.2 then
        dispatchProb expQ cfg mt dss g p.2
      else 0
    decide (infRand p.1 < prob))).map Prod.snd

/-- The first commit loop of `Simulation.step` (lines 129-131): newly
infected nodes become `infected` with `days_infected` reset to `0`. -/
def commitInfections (g : Graph) (ni : List ℕ) : Graph :=
  { g with data := fun i =>
      if i ∈ ni then
        { g.data i with
            infection_state := InfState.infected
            days_infected := 0 }
      else g.data i }

/-- The second commit loop of `Simulation.step` (lines 133-134): newly
recovered nodes become `recovered`. -/
def commitRecoveries (g : Graph) (nr : List ℕ) : Graph :=
  { g with data := fun i =>
      if i ∈ nr then
        { g.data i with infection_state := InfState.recovered }
      else g.data i }

namespace Simulation

/-- The daily superspreader status refresh of `Simulation.step`
(lines 76-85): only the `superspreader_dynamic` model touches the cache. -/
def stepStatus (cfg : SimConfig) (ssRand : ℕ → ℚ) (st : SimState) :
    List (ℕ × Bool) × ℤ :=
  if cfg.modelType = "superspreader_dynamic" then
    Superspreader.determine_daily_status st.graph cfg (st.current_day : ℤ)
      st.last_superspreader_status_update_day st.daily_superspreader_status
      ssRand
  else
    (st.daily_superspreader_status, st.last_superspreader_status_update_day)

/-- `newly_infected_today` as computed by one `Simulation.step`: the
infection pass runs over the graph after the `days_infected` increments but
before any state commit. -/
def stepNewlyInfected (expQ : ℚ → Option ℚ) (cfg : SimConfig)
    (ssRand infRand : ℕ → ℚ) (st : SimState) : List ℕ :=
  infectionPass expQ cfg cfg.modelType (stepStatus cfg ssRand st).1
    (incrementDays st.graph) (susceptibleNodes st.graph) infRand

/-- The graph after one `Simulation.step`: increments, then the infection
commit loop, then the recovery commit loop. -/
def stepGraph (expQ : ℚ → Option ℚ) (cfg : SimConfig)
    (ssRand infRand : ℕ → ℚ) (st : SimState) : Graph :=
  commitRecoveries
    (commitInfections (incrementDays st.graph)
      (stepNewlyInfected expQ cfg ssRand infRand st))
    (recoveredToday st.graph (recoveryDurationOf cfg))

/-- The body of `Simulation.step` past its guard (lines 67-138): commit the
transitions, advance `current_day`, append the newly-infected count, then
`record_stats`. -/
def stepBody (expQ : ℚ → Option ℚ) (cfg : SimConfig)
    (ssRand infRand : ℕ → ℚ) (st : SimState) : SimState :=
  record_stats
    { graph := stepGraph expQ cfg ssRand infRand st,
      current_day := st.current_day + 1,
      results := { st.results with
        newly_infected_today := st.results.newly_infected_today ++
          [(stepNewlyInfected expQ cfg ssRand infRand st).length] },
      daily_superspreader_status := (stepStatus cfg ssRand st).1,
      last_superspreader_status_update_day := (stepStatus cfg ssRand st).2 }

/-- `Simulation.step` (lines 62-138), with its entry guard
`if self.current_day >= self.config['number_of_days']: return`. -/
def step (expQ : ℚ → Option ℚ) (cfg : SimConfig)
    (ssRand infRand : ℕ → ℚ) (st : SimState) : SimState :=
  if cfg.number_of_days ≤ st.current_day then st
  else stepBody expQ cfg ssRand infRand st

/-- `Simulation.__init__` (lines 27-51) after `create_population_graph`:
day 0, a `0` pre-appended to `newly_infected_today`, then `record_stats`;
the superspreader cache starts empty with last update day `-1`. -/
def init (g : Graph) : SimState :=
  record_stats
    { graph := g, current_day := 0,
      results := { day := [], susceptible := [], infected := [],
                   recovered := [], newly_infected_today := [0] },
      daily_superspreader_status := [],
      last_superspreader_status_update_day := -1 }

/-- The day loop of `Simulation.run` over an explicit list of day indices;
`ssRand d` and `infRand d` are day `d`'s random streams. -/
def runAux (expQ : ℚ → Option ℚ) (cfg : SimConfig)
    (ssRand infRand : ℕ → ℕ → ℚ) (days : List ℕ) (st : SimState) :
    SimState :=
  days.foldl (fun s d => step expQ cfg (ssRand d) (infRand d) s) st

/-- `Simulation.run` (lines 53-60): exactly `number_of_days` calls to
`step`, with no early exit. -/
def run (expQ : ℚ → Option ℚ) (cfg : SimConfig)
    (ssRand infRand : ℕ → ℕ → ℚ) (st : SimState) : SimState :=
  runAux expQ cfg ssRand infRand (List.range cfg.number_of_days) st

end Simulation

/-- Node and edge attribute stamping of
`graph_setup.create_population_graph` (lines 59-76): the graph topology
(`adj`), the clipped-normal attribute draws (`imm`, `vac`) and the Bernoulli
initial-infection draws (`infectedInit`) are supplied as inputs; every node
starts `infected` or `susceptible` and `days_infected` is untouched
(i.e. `0` under `.get('days_infected', 0)`). -/
def create_population_graph (n : ℕ) (infectedInit : ℕ → Bool)
    (imm vac : ℕ → ℚ) (adj : ℕ → List ℕ) : Graph :=
  { nodes := List.range n,
    adj := adj,
    data := fun i =>
      { infection_state :=
          if infectedInit i then InfState.infected else InfState.susceptible,
        immune_level := imm i,
        vaccine_effectiveness := vac i,
        days_infected := 0 } }

/-! ## Definitions used by the claim statements -/

/-- The transitions `Simulation.step` is claimed to allow on a node's
`infection_state`: stay put, susceptible→infected, or infected→recovered
(in particular never recovered→infected and never infected→susceptible). -/
def InfState.stepOK (a b : InfState) : Prop :=
  a = b ∨ (a = InfState.susceptible ∧ b = InfState.infected) ∨
    (a = InfState.infected ∧ b = InfState.recovered)

/-- Pointwise `susceptible + infected + recovered` across the recorded
per-day counts. -/
def sumSIR (r : SimResults) : List ℕ :=
  List.zipWith (fun a b => a + b)
    (List.zipWith (fun a b => a + b) r.susceptible r.infected) r.recovered

/-- `infection_params.get('base_prob_transmission', 0.05)` as the
independent model reads it. -/
def baseProbOf (cfg : SimConfig) : ℚ :=
  (SimConfig.params cfg).base_prob_transmission.getD (1/20)

/-- `cfg` with `infection_model.type` replaced (all other keys kept). -/
def withModelType (cfg : SimConfig) (t : String) : SimConfig :=
  { cfg with infection_model := some { cfg.modelConfig with type := some t } }

/-- The bookkeeping invariant `Simulation.step` maintains: the node list is
fixed, `results['day']` is `0, 1, …, current_day`, every results list holds
`current_day + 1` entries, the first `newly_infected_today` entry is `0`,
and every recorded `S + I + R` equals the node count. -/
def ResultsInv (nodes0 : List ℕ) (st : SimState) : Prop :=
  st.graph.nodes = nodes0 ∧
  st.results.day = List.range (st.current_day + 1) ∧
  st.results.susceptible.length = st.current_day + 1 ∧
  st.results.infected.length = st.current_day + 1 ∧
  st.results.recovered.length = st.current_day + 1 ∧
  st.results.newly_infected_today.length = st.current_day + 1 ∧
  st.results.newly_infected_today.head? = some 0 ∧
  sumSIR st.results = List.replicate (st.current_day + 1) nodes0.length

/-! ## Concrete fixtures for counterexamples and witnesses -/

/-- Two mutually linked nodes, node 0 infected, node 1 susceptible, no
defenses. -/
def gPair : Graph :=
  { nodes := [0, 1],
    adj := fun i => if i = 0 then [1] else if i = 1 then [0] else [],
    data := fun i =>
      if i = 0 then ⟨InfState.infected, 0, 0, 0⟩
      else ⟨InfState.susceptible, 0, 0, 0⟩ }

/-- A one-day configuration whose `infection_model.type` is the unsupported
string `mystery`, with certain transmission (`base_prob_transmission = 1`). -/
def cfgMystery : SimConfig :=
  { number_of_days := 1,
    infection_model := some
      { type := some "mystery", recovery_duration := some 14,
        infection_parameters := some
          { emptyParams with base_prob_transmission := some 1 } } }

/-- `cfgMystery` with the `independent` model instead. -/
def cfgIndep : SimConfig :=
  { number_of_days := 1,
    infection_model := some
      { type := some "independent", recovery_duration := some 14,
        infection_parameters := some
          { emptyParams with base_prob_transmission := some 1 } } }

/-- Node 1 infected, node 0 susceptible with no defenses (for the dependent
model: node 0 has exactly one infected neighbor). -/
def gOneInfectedNeighbor : Graph :=
  { nodes := [0, 1],
    adj := fun i => if i = 0 then [1] else if i = 1 then [0] else [],
    data := fun i =>
      if i = 1 then ⟨InfState.infected, 0, 0, 0⟩
      else ⟨InfState.susceptible, 0, 0, 0⟩ }

/-- A `dependent`-model configuration with `infection_parameters` absent, so
every parameter takes its in-code default. -/
def cfgDependentDefaults : SimConfig :=
  { number_of_days := 30,
    infection_model := some
      { type := some "dependent", recovery_duration := none,
        infection_parameters := none } }

/-- A path `0 — 1 — 2` with node 0 infected and no defenses. -/
def pathGraph : Graph :=
  { nodes := [0, 1, 2],
    adj := fun i =>
      if i = 0 then [1] else if i = 1 then [0, 2]
      else if i = 2 then [1] else [],
    data := fun i =>
      if i = 0 then ⟨InfState.infected, 0, 0, 0⟩
      else ⟨InfState.susceptible, 0, 0, 0⟩ }

/-- One day of the independent model with certain transmission. -/
def cfgPath : SimConfig :=
  { number_of_days := 1,
    infection_model := some
      { type := some "independent", recovery_duration := some 14,
        infection_parameters := some
          { emptyParams with base_prob_transmission := some 1 } } }

/-- A configuration with no `infection_model` overrides at all. -/
def cfgBare : SimConfig := { number_of_days := 1, infection_model := none }

/-- Two mutually linked susceptible nodes; node 0 carries nonzero defenses
(`immune_level = 1/2`, `vaccine_effectiveness = 1/3`) and has no infected
neighbor. -/
def gDefendedNoInfected : Graph :=
  { nodes := [0, 1],
    adj := fun i => if i = 0 then [1] else if i = 1 then [0] else [],
    data := fun i =>
      if i = 0 then ⟨InfState.susceptible, 1/2, 1/3, 0⟩
      else ⟨InfState.susceptible, 0, 0, 0⟩ }

/-- Node 0 infected and one day short of recovery (`days_infected = 13`
with `recovery_duration = 14`), node 1 susceptible without defenses. -/
def gAboutToRecover : Graph :=
  { nodes := [0, 1],
    adj := fun i => if i = 0 then [1] else if i = 1 then [0] else [],
    data := fun i =>
      if i = 0 then ⟨InfState.infected, 0, 0, 13⟩
      else ⟨InfState.susceptible, 0, 0, 0⟩ }

/-- Five days of the independent model with certain transmission and
`recovery_duration = 14`. -/
def cfgRecover : SimConfig :=
  { number_of_days := 5,
    infection_model := some
      { type := some "independent", recovery_duration := some 14,
        infection_parameters := some
          { emptyParams with base_prob_transmission := some 1 } } }

/-! ## Helper lemmas -/

theorem incrementDays_state (g : Graph) (m : ℕ) :
    ((incrementDays g).data m).infection_state =
      (g.data m).infection_state := by
  simp only [incrementDays]
  split <;> rfl

theorem commitInfections_data (g : Graph) (ni : List ℕ) (i : ℕ) :
    (commitInfections g ni).data i =
      if i ∈ ni then
        { g.data i with infection_state := InfState.infected, days_infected := 0 }
      else g.data i := rfl

theorem commitRecoveries_data (g : Graph) (nr : List ℕ) (i : ℕ) :
    (commitRecoveries g nr).data i =
      if i ∈ nr then
        { g.data i with infection_state := InfState.recovered }
      else g.data i := rfl

theorem stepGraph_nodes (expQ : ℚ → Option ℚ) (cfg : SimConfig)
    (sr ir : ℕ → ℚ) (st : SimState) :
    (Simulation.stepGraph expQ cfg sr ir st).nodes = st.graph.nodes := rfl

theorem step_graph_nodes (expQ : ℚ → Option ℚ) (cfg : SimConfig)
    (sr ir : ℕ → ℚ) (st : SimState) :
    (Simulation.step expQ cfg sr ir st).graph.nodes = st.graph.nodes := by
  unfold Simulation.step
  split <;> rfl

theorem step_of_lt (expQ : ℚ → Option ℚ) (cfg : SimConfig) (sr ir : ℕ → ℚ)
    (st : SimState) (h : st.current_day < cfg.number_of_days) :
    Simulation.step expQ cfg sr ir st =
      Simulation.stepBody expQ cfg sr ir st := by
  unfold Simulation.step
  rw [if_neg (by omega)]

theorem stepBody_current_day (expQ : ℚ → Option ℚ) (cfg : SimConfig)
    (sr ir : ℕ → ℚ) (st : SimState) :
    (Simulation.stepBody expQ cfg sr ir st).current_day =
      st.current_day + 1 := rfl

theorem stepBody_graph (expQ : ℚ → Option ℚ) (cfg : SimConfig)
    (sr ir : ℕ → ℚ) (st : SimState) :
    (Simulation.stepBody expQ cfg sr ir st).graph =
      Simulation.stepGraph expQ cfg sr ir st := rfl

theorem stepBody_results (expQ : ℚ → Option ℚ) (cfg : SimConfig)
    (sr ir : ℕ → ℚ) (st : SimState) :
    (Simulation.stepBody expQ cfg sr ir st).results =
      { day := st.results.day ++ [st.current_day + 1],
        susceptible := st.results.susceptible ++
          [countState (Simulation.stepGraph expQ cfg sr ir st)
            InfState.susceptible],
        infected := st.results.infected ++
          [countState (Simulation.stepGraph expQ cfg sr ir st)
            InfState.infected],
        recovered := st.results.recovered ++
          [countState (Simulation.stepGraph expQ cfg sr ir st)
            InfState.recovered],
        newly_infected_today := st.results.newly_infected_today ++
          [(Simulation.stepNewlyInfected expQ cfg sr ir st).length] } := rfl

theorem filter_states_length (f : ℕ → InfState) (l : List ℕ) :
    (l.filter (fun i => decide (f i = InfState.susceptible))).length +
      (l.filter (fun i => decide (f i = InfState.infected))).length +
      (l.filter (fun i => decide (f i = InfState.recovered))).length =
      l.length := by
  induction l with
  | nil => rfl
  | cons a t ih =>
    cases h : f a <;> simp [List.filter_cons, h] <;> omega

theorem countState_total (g : Graph) :
    countState g InfState.susceptible + countState g InfState.infected +
      countState g InfState.recovered = g.nodes.length :=
  filter_states_length (fun i => (g.data i).infection_state) g.nodes

theorem mem_susceptibleNodes {g : Graph} {i : ℕ}
    (h : i ∈ susceptibleNodes g) :
    (g.data i).infection_state = InfState.susceptible := by
  have := List.of_mem_filter h
  simpa using this

theorem mem_recoveredToday {g : Graph} {rd i : ℕ}
    (h : i ∈ recoveredToday g rd) :
    (g.data i).infection_state = InfState.infected ∧
      rd ≤ (g.data i).days_infected + 1 := by
  have := List.of_mem_filter h
  simpa using this

theorem mem_recoveredToday_of (g : Graph) (rd i : ℕ) (hn : i ∈ g.nodes)
    (h1 : (g.data i).infection_state = InfState.infected)
    (h2 : rd ≤ (g.data i).days_infected + 1) :
    i ∈ recoveredToday g rd := by
  refine List.mem_filter.2 ⟨hn, ?_⟩
  simp [h1, h2]

theorem mem_of_mem_stepNewlyInfected {expQ : ℚ → Option ℚ} {cfg : SimConfig}
    {sr ir : ℕ → ℚ} {st : SimState} {i : ℕ}
    (h : i ∈ Simulation.stepNewlyInfected expQ cfg sr ir st) :
    i ∈ susceptibleNodes st.graph := by
  unfold Simulation.stepNewlyInfected infectionPass at h
  rcases List.mem_map.1 h with ⟨p, hp, rfl⟩
  exact List.snd_mem_of_mem_enum (List.mem_of_mem_filter hp)

theorem head?_append_zero {l l' : List ℕ} (h : l.head? = some 0) :
    (l ++ l').head? = some 0 := by
  cases l with
  | nil => simp at h
  | cons a t => simpa using h

theorem resultsInv_init (g : Graph) :
    ResultsInv g.nodes (Simulation.init g) := by
  refine ⟨rfl, rfl, rfl, rfl, rfl, rfl, rfl, ?_⟩
  show [countState g InfState.susceptible + countState g InfState.infected +
      countState g InfState.recovered] = [g.nodes.length]
  rw [countState_total]

theorem resultsInv_step (expQ : ℚ → Option ℚ) (cfg : SimConfig)
    (sr ir : ℕ → ℚ) (nodes0 : List ℕ) (st : SimState)
    (h : ResultsInv nodes0 st) :
    ResultsInv nodes0 (Simulation.step expQ cfg sr ir st) := by
  obtain ⟨h1, h2, h3, h4, h5, h6, h7, h8⟩ := h
  unfold Simulation.step
  split
  · exact ⟨h1, h2, h3, h4, h5, h6, h7, h8⟩
  refine ⟨?_, ?_, ?_, ?_, ?_, ?_, ?_, ?_⟩
  · rw [stepBody_graph, stepGraph_nodes]
    exact h1
  · rw [stepBody_results, stepBody_current_day]
    show st.results.day ++ [st.current_day + 1] = _
    rw [List.range_succ, h2]
  · rw [stepBody_results, stepBody_current_day]
    show (st.results.susceptible ++ [_]).length = _
    simp [h3]
  · rw [stepBody_results, stepBody_current_day]
    show (st.results.infected ++ [_]).length = _
    simp [h4]
  · rw [stepBody_results, stepBody_current_day]
    show (st.results.recovered ++ [_]).length = _
    simp [h5]
  · rw [stepBody_results, stepBody_current_day]
    show (st.results.newly_infected_today ++ [_]).length = _
    simp [h6]
  · rw [stepBody_results]
    show (st.results.newly_infected_today ++ [_]).head? = some 0
    exact head?_append_zero h7
  · rw [stepBody_results, stepBody_current_day]
    unfold sumSIR
    show List.zipWith _ (List.zipWith _ (st.results.susceptible ++ [_])
      (st.results.infected ++ [_])) (st.results.recovered ++ [_]) = _
    rw [List.zipWith_append _ _ _ _ _ (by rw [h3, h4]),
      List.zipWith_append _ _ _ _ _
        (by rw [List.length_zipWith, h3, h4, h5]; omega)]
    have hsum : countState (Simulation.stepGraph expQ cfg sr ir st)
        InfState.susceptible +
        countState (Simulation.stepGraph expQ cfg sr ir st)
          InfState.infected +
        countState (Simulation.stepGraph expQ cfg sr ir st)
          InfState.recovered = nodes0.length := by
      rw [countState_total, stepGraph_nodes, h1]
    have h8' : sumSIR st.results =
        List.replicate (st.current_day + 1) nodes0.length := h8
    unfold sumSIR at h8'
    rw [h8']
    show List.replicate (st.current_day + 1) nodes0.length ++ [_] = _
    rw [List.replicate_succ' (st.current_day + 1) nodes0.length]
    congr 1
    show [_ + _ + _] = [nodes0.length]
    rw [hsum]

theorem runAux_inv (expQ : ℚ → Option ℚ) (cfg : SimConfig)
    (sr ir : ℕ → ℕ → ℚ) (days : List ℕ) (nodes0 : List ℕ) (st : SimState)
    (h : ResultsInv nodes0 st) :
    ResultsInv nodes0 (Simulation.runAux expQ cfg sr ir days st) := by
  induction days generalizing st with
  | nil => exact h
  | cons d t ih =>
    exact ih (Simulation.step expQ cfg (sr d) (ir d) st)
      (resultsInv_step expQ cfg (sr d) (ir d) nodes0 st h)

theorem runAux_current_day (expQ : ℚ → Option ℚ) (cfg : SimConfig)
    (sr ir : ℕ → ℕ → ℚ) (days : List ℕ) (st : SimState)
    (h : st.current_day + days.length ≤ cfg.number_of_days) :
    (Simulation.runAux expQ cfg sr ir days st).current_day =
      st.current_day + days.length := by
  induction days generalizing st with
  | nil => simp [Simulation.runAux]
  | cons d t ih =>
    have hlt : st.current_day < cfg.number_of_days := by
      simp only [List.length_cons] at h
      omega
    show (Simulation.runAux expQ cfg sr ir t
      (Simulation.step expQ cfg (sr d) (ir d) st)).current_day = _
    rw [step_of_lt expQ cfg (sr d) (ir d) st hlt]
    have hrec := ih (Simulation.stepBody expQ cfg (sr d) (ir d) st)
      (by rw [stepBody_current_day]; simp only [List.length_cons] at h; omega)
    rw [hrec, stepBody_current_day]
    simp only [List.length_cons]
    omega

theorem init_current_day (g : Graph) :
    (Simulation.init g).current_day = 0 := rfl

/-! ## Claim theorems -/

/-- C9: `Simulation.run` executes exactly `number_of_days` steps with no
early-exit or convergence condition, so from a fresh simulation the results
hold exactly `number_of_days + 1` snapshots, indexed by day `0 … n`, and the
day-0 `newly_infected_today` entry is `0`. -/
theorem c9_run_exact_days (expQ : ℚ → Option ℚ) (cfg : SimConfig)
    (ssRand infRand : ℕ → ℕ → ℚ) (g : Graph) :
    (Simulation.run expQ cfg ssRand infRand
        (Simulation.init g)).results.day =
      List.range (cfg.number_of_days + 1) ∧
    (Simulation.run expQ cfg ssRand infRand
        (Simulation.init g)).results.susceptible.length =
      cfg.number_of_days + 1 ∧
    (Simulation.run expQ cfg ssRand infRand
        (Simulation.init g)).results.infected.length =
      cfg.number_of_days + 1 ∧
    (Simulation.run expQ cfg ssRand infRand
        (Simulation.init g)).results.recovered.length =
      cfg.number_of_days + 1 ∧
    (Simulation.run expQ cfg ssRand infRand
        (Simulation.init g)).results.newly_infected_today.length =
      cfg.number_of_days + 1 ∧
    (Simulation.run expQ cfg ssRand infRand
        (Simulation.init g)).results.newly_infected_today.head? =
      some 0 := by
  unfold Simulation.run
  have hinv := runAux_inv expQ cfg ssRand infRand
    (List.range cfg.number_of_days) g.nodes (Simulation.init g)
    (resultsInv_init g)
  have hcd := runAux_current_day expQ cfg ssRand infRand
    (List.range cfg.number_of_days) (Simulation.init g)
    (by rw [init_current_day, List.length_range]; omega)
  rw [init_current_day, List.length_range] at hcd
  obtain ⟨-, h2, h3, h4, h5, h6, h7, -⟩ := hinv
  rw [hcd] at h2 h3 h4 h5 h6
  simp only [Nat.zero_add] at h2 h3 h4 h5 h6
  exact ⟨h2, h3, h4, h5, h6, h7⟩

/-- C3: on every day of every run (day 0 included), the recorded
susceptible, infected and recovered counts sum to the configured population
size `n` (the node count `create_population_graph` produces). -/
theorem c3_population_conservation (expQ : ℚ → Option ℚ) (cfg : SimConfig)
    (ssRand infRand : ℕ → ℕ → ℚ) (n : ℕ) (infectedInit : ℕ → Bool)
    (imm vac : ℕ → ℚ) (adj : ℕ → List ℕ) :
    sumSIR (Simulation.run expQ cfg ssRand infRand
        (Simulation.init
          (create_population_graph n infectedInit imm vac adj))).results =
      List.replicate (cfg.number_of_days + 1) n := by
  unfold Simulation.run
  have hinv := runAux_inv expQ cfg ssRand infRand
    (List.range cfg.number_of_days)
    (create_population_graph n infectedInit imm vac adj).nodes
    (Simulation.init (create_population_graph n infectedInit imm vac adj))
    (resultsInv_init (create_population_graph n infectedInit imm vac adj))
  have hcd := runAux_current_day expQ cfg ssRand infRand
    (List.range cfg.number_of_days)
    (Simulation.init (create_population_graph n infectedInit imm vac adj))
    (by rw [init_current_day, List.length_range]; omega)
  rw [init_current_day, List.length_range] at hcd
  obtain ⟨-, -, -, -, -, -, -, h8⟩ := hinv
  rw [hcd] at h8
  simp only [Nat.zero_add] at h8
  rw [h8]
  show List.replicate _ (List.range n).length = _
  rw [List.length_range]

/-- C4: a single `Simulation.step` moves each node's `infection_state` only
along susceptible→infected or infected→recovered (or leaves it unchanged);
no node ever moves recovered→infected or infected→susceptible.  Since `run`
is a fold of `step`, this covers every step of every simulation. -/
theorem c4_monotone_transitions (expQ : ℚ → Option ℚ) (cfg : SimConfig)
    (ssRand infRand : ℕ → ℚ) (st : SimState) (x : ℕ) :
    InfState.stepOK ((st.graph.data x).infection_state)
      (((Simulation.step expQ cfg ssRand infRand
        st).graph.data x).infection_state) := by
  unfold Simulation.step
  split
  · exact Or.inl rfl
  · rw [stepBody_graph]
    unfold Simulation.stepGraph
    rw [commitRecoveries_data]
    by_cases hr : x ∈ recoveredToday st.graph (recoveryDurationOf cfg)
    · rw [if_pos hr]
      exact Or.inr (Or.inr ⟨(mem_recoveredToday hr).1, rfl⟩)
    · rw [if_neg hr, commitInfections_data]
      by_cases hi : x ∈ Simulation.stepNewlyInfected expQ cfg ssRand
          infRand st
      · rw [if_pos hi]
        exact Or.inr (Or.inl
          ⟨mem_susceptibleNodes (mem_of_mem_stepNewlyInfected hi), rfl⟩)
      · rw [if_neg hi]
        exact Or.inl (incrementDays_state st.graph x).symm

/-- C7: on a fresh day `determine_daily_status` draws exactly one Bernoulli
sample per currently infected node (the i-th infected node's flag is decided
by draw `rand i` alone), and once the cache is stamped with the current day
every further same-day query returns the cached mapping unchanged, whatever
random stream it is offered (no redraw). -/
theorem c7_superspreader_daily_roll (g : Graph) (cfg : SimConfig)
    (d last : ℤ) (existing : List (ℕ × Bool)) (rand rand2 : ℕ → ℚ)
    (h : d ≠ last) :
    Superspreader.determine_daily_status g cfg d d existing rand2 =
      (existing, d) ∧
    (Superspreader.determine_daily_status g cfg d last existing rand).2 =
      d ∧
    (Superspreader.determine_daily_status g cfg d last existing
        rand).1.map Prod.fst = Superspreader.infectedNodes g ∧
    (Superspreader.determine_daily_status g cfg d last existing
        rand).1.map Prod.snd =
      (List.range (Superspreader.infectedNodes g).length).map
        (fun i => decide (rand i <
          Superspreader.pBecomesSuperspreader cfg)) := by
  have hsame : Superspreader.determine_daily_status g cfg d d existing
      rand2 = (existing, d) := by
    unfold Superspreader.determine_daily_status
    rw [if_pos rfl]
  have hfresh : Superspreader.determine_daily_status g cfg d last existing
      rand = ((Superspreader.infectedNodes g).enum.map
        (fun q => (q.2, decide (rand q.1 <
          Superspreader.pBecomesSuperspreader cfg))), d) := by
    unfold Superspreader.determine_daily_status
    rw [if_neg h]
  refine ⟨hsame, ?_, ?_, ?_⟩
  · rw [hfresh]
  · rw [hfresh, List.map_map]
    exact List.enum_map_snd (Superspreader.infectedNodes g)
  · rw [hfresh, ← List.enum_map_fst (Superspreader.infectedNodes g),
      List.map_map, List.map_map]
    rfl

/-- C8: the dependent (sigmoid) model never propagates a floating-point
overflow from `math.exp`: when `pyExp` overflows the sigmoid saturates to
`0` for a positive exponent and `1` otherwise, and the probability the model
returns is always within `[0, 1]`. -/
theorem c8_sigmoid_overflow_saturates :
    (∀ e : ℝ, Dependent.pyExp e = none →
      Dependent.sigmoidOfExponent e = if 0 < e then 0 else 1) ∧
    (∀ (g : Graph) (s : ℕ) (cfg : SimConfig),
      0 ≤ Dependent.calculate_probabilityR g s cfg ∧
      Dependent.calculate_probabilityR g s cfg ≤ 1) := by
  constructor
  · intro e he
    unfold Dependent.sigmoidOfExponent
    rw [he]
  · intro g s cfg
    simp only [Dependent.calculate_probabilityR, Dependent.clamp01R]
    exact ⟨le_max_left 0 _, max_le zero_le_one (min_le_left 1 _)⟩

theorem foldl_condMul (c : ℚ) (q : ℕ → Prop) [DecidablePred q]
    (l : List ℕ) (a : ℚ) :
    l.foldl (fun acc m => if q m then acc * c else acc) a =
      a * c ^ (l.filter (fun m => decide (q m))).length := by
  induction l generalizing a with
  | nil => simp
  | cons x t ih =>
    rw [List.foldl_cons]
    by_cases hx : q x
    · rw [if_pos hx, ih, List.filter_cons_of_pos (by simpa using hx),
        List.length_cons, pow_succ]
      ring
    · rw [if_neg hx, ih, List.filter_cons_of_neg (by simpa using hx)]

/-- C6: the independent-hazard model returns exactly `0` for a susceptible
node with no infected neighbor — whatever its `immune_level` and
`vaccine_effectiveness` — and exactly `base_prob_transmission` for one with
a single infected neighbor when `immune_level` and `vaccine_effectiveness`
are `0` (given the schema's bound `base_prob_transmission ∈ [0, 1]`). -/
theorem c6_independent_base_cases (g : Graph) (s : ℕ) (cfg : SimConfig) :
    (infectedNeighborCount g s = 0 →
      Independent.calculate_probability g s cfg = 0) ∧
    ((g.data s).immune_level = 0 →
      (g.data s).vaccine_effectiveness = 0 →
      0 ≤ baseProbOf cfg → baseProbOf cfg ≤ 1 →
      infectedNeighborCount g s = 1 →
      Independent.calculate_probability g s cfg = baseProbOf cfg) := by
  have hbase : (SimConfig.params cfg).base_prob_transmission.getD (1/20) =
      baseProbOf cfg := rfl
  have hmain : Independent.calculate_probability g s cfg =
      clamp01 (1 - 1 * (1 - clamp01 (baseProbOf cfg *
        (1 - (g.data s).immune_level) *
        (1 - (g.data s).vaccine_effectiveness))) ^
        infectedNeighborCount g s) := by
    simp only [Independent.calculate_probability, hbase]
    rw [foldl_condMul (1 - clamp01 (baseProbOf cfg *
        (1 - (g.data s).immune_level) *
        (1 - (g.data s).vaccine_effectiveness)))
      (fun m => (g.data m).infection_state = InfState.infected) (g.adj s) 1]
    rfl
  constructor
  · intro hk
    rw [hmain, hk, pow_zero]
    norm_num [clamp01]
  · intro himm hvac hb0 hb1 hk
    have hcb : clamp01 (baseProbOf cfg) = baseProbOf cfg := by
      unfold clamp01
      rw [min_eq_right hb1, max_eq_right hb0]
    rw [hmain, himm, hvac, hk, pow_one, sub_zero, mul_one, mul_one, hcb]
    have harith : (1 : ℚ) - 1 * (1 - baseProbOf cfg) = baseProbOf cfg := by
      ring
    rw [harith, hcb]

/-- C2: evaluated at a susceptible node with one infected neighbor, no
defenses and `infection_parameters` absent, the dependent model computes the
sigmoid at exponent `-0.1·1 + 3` — the in-code default is `beta = 3`
(`dependent.py` line 41) — and its result differs from the value the claim's
documented default `beta = 0.3` would give.  (`config.py` line 98 documents
`Default: 0.3`, so the code contradicts its own schema documentation.) -/
theorem c2_beta_default_mismatch :
    Dependent.calculate_probabilityR gOneInfectedNeighbor 0
        cfgDependentDefaults =
      1 / (1 + Real.exp (-(1/10) * 1 + 3)) ∧
    Dependent.calculate_probabilityR gOneInfectedNeighbor 0
        cfgDependentDefaults ≠
      1 / (1 + Real.exp (-(1/10) * 1 + (3/10))) := by
  have hk : infectedNeighborCount gOneInfectedNeighbor 0 = 1 := by decide
  have hexp : Dependent.exponentVal gOneInfectedNeighbor 0
      cfgDependentDefaults = 29/10 := by
    unfold Dependent.exponentVal
    rw [hk]
    norm_num [cfgDependentDefaults, SimConfig.params, SimConfig.modelConfig,
      emptyParams]
  have hpy : Dependent.pyExp ((29:ℝ)/10) = some (Real.exp (29/10)) := by
    unfold Dependent.pyExp
    rw [if_pos]
    norm_num [Dependent.pyExpOverflowBound]
  have hsig : Dependent.sigmoidOfExponent ((29:ℝ)/10) =
      1 / (1 + Real.exp (29/10)) := by
    unfold Dependent.sigmoidOfExponent
    rw [hpy]
  have himm : ((gOneInfectedNeighbor.data 0).immune_level : ℝ) = 0 := by
    norm_num [gOneInfectedNeighbor]
  have hvac :
      ((gOneInfectedNeighbor.data 0).vaccine_effectiveness : ℝ) = 0 := by
    norm_num [gOneInfectedNeighbor]
  have hmain : Dependent.calculate_probabilityR gOneInfectedNeighbor 0
      cfgDependentDefaults = 1 / (1 + Real.exp (29/10)) := by
    unfold Dependent.calculate_probabilityR
    rw [hexp, hsig, himm, hvac]
    have h1 : (0:ℝ) < 1 + Real.exp (29/10) := by positivity
    have hx1 : 1 / (1 + Real.exp (29/10)) ≤ 1 := by
      rw [div_le_one h1]
      linarith [Real.exp_pos ((29:ℝ)/10)]
    have hx0 : (0:ℝ) ≤ 1 / (1 + Real.exp (29/10)) := by positivity
    unfold Dependent.clamp01R
    dsimp only
    rw [sub_zero, mul_one, mul_one, min_eq_right hx1, max_eq_right hx0]
  constructor
  · rw [hmain]
    norm_num
  · rw [hmain]
    have h02 : Real.exp (1/5) < Real.exp (29/10) := by
      rw [Real.exp_lt_exp]
      norm_num
    have hlt : 1 / (1 + Real.exp (29/10)) < 1 / (1 + Real.exp (1/5)) := by
      apply one_div_lt_one_div_of_lt
      · positivity
      · linarith
    have hres : -(1/10 : ℝ) * 1 + 3/10 = 1/5 := by norm_num
    rw [hres]
    exact ne_of_lt hlt

/-- C1 (amended): an unrecognized `infection_model.type` is not a fatal
error in `Simulation.step`; the step behaves exactly as with the
`independent` model (the warned per-node fallback of simulation.py
lines 118-123). -/
theorem c1_unknown_model_falls_back (expQ : ℚ → Option ℚ) (cfg : SimConfig)
    (ssRand infRand : ℕ → ℚ) (st : SimState)
    (h1 : cfg.modelType ≠ "independent")
    (h2 : cfg.modelType ≠ "dependent")
    (h3 : cfg.modelType ≠ "superspreader_dynamic") :
    Simulation.step expQ cfg ssRand infRand st =
      Simulation.step expQ (withModelType cfg "independent") ssRand infRand
        st := by
  have hmt : SimConfig.modelType (withModelType cfg "independent") =
      "independent" := rfl
  have hdisp : ∀ (dss : List (ℕ × Bool)) (g : Graph) (s : ℕ),
      dispatchProb expQ cfg cfg.modelType dss g s =
        dispatchProb expQ (withModelType cfg "independent") "independent"
          dss g s := by
    intro dss g s
    unfold dispatchProb
    rw [if_neg h1, if_neg h2, if_neg h3, if_pos rfl]
    rfl
  have hstat : Simulation.stepStatus cfg ssRand st =
      Simulation.stepStatus (withModelType cfg "independent") ssRand st := by
    unfold Simulation.stepStatus
    rw [if_neg h3, if_neg (by rw [hmt]; decide)]
  have hni : Simulation.stepNewlyInfected expQ cfg ssRand infRand st =
      Simulation.stepNewlyInfected expQ (withModelType cfg "independent")
        ssRand infRand st := by
    unfold Simulation.stepNewlyInfected
    rw [← hstat, hmt]
    unfold infectionPass
    apply congrArg
    apply List.filter_congr
    intro p hp
    dsimp only
    rw [hdisp]
  have hgr : Simulation.stepGraph expQ cfg ssRand infRand st =
      Simulation.stepGraph expQ (withModelType cfg "independent") ssRand
        infRand st := by
    unfold Simulation.stepGraph
    rw [hni]
    rfl
  unfold Simulation.step
  have hnd : (withModelType cfg "independent").number_of_days =
      cfg.number_of_days := rfl
  rw [hnd]
  by_cases hguard : cfg.number_of_days ≤ st.current_day
  · rw [if_pos hguard, if_pos hguard]
  · rw [if_neg hguard, if_neg hguard]
    unfold Simulation.stepBody
    rw [hgr, hni, hstat]

/-- C1 (counterexample): a simulation configured with the unsupported model
type `mystery` raises nothing: it executes its day and infects the
susceptible node via the independent-model fallback
(`base_prob_transmission = 1`), ending with infected counts `[1, 2]`. -/
theorem c1_counterexample :
    cfgMystery.modelType = "mystery" ∧
    (Simulation.run (fun _ => some 1) cfgMystery (fun _ _ => 0)
      (fun _ _ => 0) (Simulation.init gPair)).results.infected = [1, 2] := by
  refine ⟨rfl, ?_⟩
  have hclamp1 : clamp01 1 = 1 := by
    unfold clamp01
    rw [min_self, max_eq_right (by norm_num : (0:ℚ) ≤ 1)]
  have hadj : (incrementDays (Simulation.init gPair).graph).adj 1 = [0] := by
    decide
  have hst : ((incrementDays (Simulation.init gPair).graph).data
      0).infection_state = InfState.infected := by decide
  have himm : ((incrementDays (Simulation.init gPair).graph).data
      1).immune_level = 0 := by decide
  have hvac : ((incrementDays (Simulation.init gPair).graph).data
      1).vaccine_effectiveness = 0 := by decide
  have hbase : (SimConfig.params cfgMystery).base_prob_transmission.getD
      (1/20) = 1 := rfl
  have hprob : Independent.calculate_probability
      (incrementDays (Simulation.init gPair).graph) 1 cfgMystery = 1 := by
    unfold Independent.calculate_probability
    dsimp only
    rw [hadj, himm, hvac, hbase, List.foldl_cons, List.foldl_nil]
    simp only [hst, if_pos]
    norm_num [hclamp1]
  have hhin : hasInfectedNeighbor
      (incrementDays (Simulation.init gPair).graph) 1 = true := by decide
  have hsus : susceptibleNodes (Simulation.init gPair).graph = [1] := by
    decide
  have hmt : SimConfig.modelType cfgMystery = "mystery" := rfl
  have hdisp : dispatchProb (fun _ : ℚ => some 1) cfgMystery
      (SimConfig.modelType cfgMystery)
      (Simulation.stepStatus cfgMystery (fun _ => 0)
        (Simulation.init gPair)).1
      (incrementDays (Simulation.init gPair).graph) 1 = 1 := by
    unfold dispatchProb
    rw [hmt, if_neg (by decide), if_neg (by decide), if_neg (by decide)]
    exact hprob
  have hni : Simulation.stepNewlyInfected (fun _ => some 1) cfgMystery
      (fun _ => 0) (fun _ => 0) (Simulation.init gPair) = [1] := by
    unfold Simulation.stepNewlyInfected infectionPass
    rw [hsus]
    have henum : ([1] : List ℕ).enum = [(0, 1)] := rfl
    rw [henum]
    simp only [List.filter_cons, List.filter_nil]
    dsimp only
    rw [hhin, if_pos rfl, hdisp]
    norm_num
  have hcount : countState (Simulation.stepGraph (fun _ => some 1)
      cfgMystery (fun _ => 0) (fun _ => 0) (Simulation.init gPair))
      InfState.infected = 2 := by
    unfold Simulation.stepGraph
    rw [hni]
    decide
  have h0 : Simulation.run (fun _ => some 1) cfgMystery (fun _ _ => 0)
      (fun _ _ => 0) (Simulation.init gPair) =
        Simulation.step (fun _ => some 1) cfgMystery (fun _ => 0)
          (fun _ => 0) (Simulation.init gPair) := rfl
  have hlt : (Simulation.init gPair).current_day <
      cfgMystery.number_of_days := by decide
  rw [h0, step_of_lt _ _ _ _ _ hlt, stepBody_results]
  show (Simulation.init gPair).results.infected ++ [_] = [1, 2]
  rw [hcount]
  decide

/-- C5: within one simulation day every susceptible node is evaluated
against the infection states committed at the end of the previous day: the
graph the infection pass reads (`incrementDays` of the pre-step graph)
carries exactly the pre-step infection states, and concretely on the path
`0—1—2` with only node 0 infected and certain transmission, node 1 is
infected during the day yet node 2 ends the day still susceptible — a
same-day infection is never contagious within the day. -/
theorem c5_snapshot_semantics (expQ : ℚ → Option ℚ) (ssRand : ℕ → ℚ)
    (infRand : ℕ → ℚ) (h0 : ∀ i, 0 ≤ infRand i) (h1 : ∀ i, infRand i < 1) :
    (∀ (g : Graph) (m : ℕ),
      ((incrementDays g).data m).infection_state =
        (g.data m).infection_state) ∧
    ((Simulation.step expQ cfgPath ssRand infRand
        (Simulation.init pathGraph)).graph.data 1).infection_state =
      InfState.infected ∧
    ((Simulation.step expQ cfgPath ssRand infRand
        (Simulation.init pathGraph)).graph.data 2).infection_state =
      InfState.susceptible := by
  have hclamp1 : clamp01 1 = 1 := by
    unfold clamp01
    rw [min_self, max_eq_right (by norm_num : (0:ℚ) ≤ 1)]
  have hadj : (incrementDays (Simulation.init pathGraph).graph).adj 1 =
      [0, 2] := by decide
  have hst0 : ((incrementDays (Simulation.init pathGraph).graph).data
      0).infection_state = InfState.infected := by decide
  have hst2 : ((incrementDays (Simulation.init pathGraph).graph).data
      2).infection_state = InfState.susceptible := by decide
  have himm : ((incrementDays (Simulation.init pathGraph).graph).data
      1).immune_level = 0 := by decide
  have hvac : ((incrementDays (Simulation.init pathGraph).graph).data
      1).vaccine_effectiveness = 0 := by decide
  have hbase : (SimConfig.params cfgPath).base_prob_transmission.getD
      (1/20) = 1 := rfl
  have hprob1 : Independent.calculate_probability
      (incrementDays (Simulation.init pathGraph).graph) 1 cfgPath = 1 := by
    unfold Independent.calculate_probability
    dsimp only
    rw [hadj, himm, hvac, hbase, List.foldl_cons, List.foldl_cons,
      List.foldl_nil]
    simp only [hst0, hst2, if_pos]
    norm_num [hclamp1]
  have hhin1 : hasInfectedNeighbor
      (incrementDays (Simulation.init pathGraph).graph) 1 = true := by
    decide
  have hhin2 : hasInfectedNeighbor
      (incrementDays (Simulation.init pathGraph).graph) 2 = false := by
    decide
  have hsus : susceptibleNodes (Simulation.init pathGraph).graph =
      [1, 2] := by decide
  have hmtP : SimConfig.modelType cfgPath = "independent" := rfl
  have hdisp1 : dispatchProb expQ cfgPath (SimConfig.modelType cfgPath)
      (Simulation.stepStatus cfgPath ssRand (Simulation.init pathGraph)).1
      (incrementDays (Simulation.init pathGraph).graph) 1 = 1 := by
    unfold dispatchProb
    rw [hmtP, if_pos rfl]
    exact hprob1
  have hni : Simulation.stepNewlyInfected expQ cfgPath ssRand infRand
      (Simulation.init pathGraph) = [1] := by
    unfold Simulation.stepNewlyInfected infectionPass
    rw [hsus]
    have henum : ([1, 2] : List ℕ).enum = [(0, 1), (1, 2)] := rfl
    rw [henum]
    simp only [List.filter_cons, List.filter_nil]
    dsimp only
    rw [hhin1, if_pos rfl, hdisp1, hhin2,
      decide_eq_true (h1 0), if_pos rfl]
    rw [if_neg (by decide : ¬ (false = true))]
    rw [decide_eq_false (not_lt.mpr (h0 1))]
    rw [if_neg (by decide : ¬ (false = true))]
    rfl
  have hg : (Simulation.step expQ cfgPath ssRand infRand
      (Simulation.init pathGraph)).graph =
        Simulation.stepGraph expQ cfgPath ssRand infRand
          (Simulation.init pathGraph) := by
    rw [step_of_lt _ _ _ _ _ (by decide), stepBody_graph]
  refine ⟨fun g m => incrementDays_state g m, ?_, ?_⟩
  · rw [hg]
    unfold Simulation.stepGraph
    rw [hni]
    decide
  · rw [hg]
    unfold Simulation.stepGraph
    rw [hni]
    decide

/-- C10: a node `r` whose `days_infected` reaches `recovery_duration` this
day joins `newly_recovered_today` in the collection pass, yet the graph the
infection pass reads still classifies `r` as infected (so `r` still
triggers `has_infected_neighbor` for every susceptible neighbor and can
transmit); only the commit after all draws marks `r` recovered. -/
theorem c10_transmits_on_recovery_day (expQ : ℚ → Option ℚ)
    (cfg : SimConfig) (ssRand infRand : ℕ → ℚ) (st : SimState) (r : ℕ)
    (hday : st.current_day < cfg.number_of_days)
    (hmem : r ∈ st.graph.nodes)
    (hinf : (st.graph.data r).infection_state = InfState.infected)
    (hdur : recoveryDurationOf cfg ≤ (st.graph.data r).days_infected + 1) :
    r ∈ recoveredToday st.graph (recoveryDurationOf cfg) ∧
    ((incrementDays st.graph).data r).infection_state =
      InfState.infected ∧
    (∀ s : ℕ, r ∈ (incrementDays st.graph).adj s →
      hasInfectedNeighbor (incrementDays st.graph) s = true) ∧
    ((Simulation.step expQ cfg ssRand infRand st).graph.data
        r).infection_state = InfState.recovered := by
  have hr : r ∈ recoveredToday st.graph (recoveryDurationOf cfg) :=
    mem_recoveredToday_of st.graph (recoveryDurationOf cfg) r hmem hinf hdur
  refine ⟨hr, ?_, ?_, ?_⟩
  · rw [incrementDays_state]
    exact hinf
  · intro s hs
    unfold hasInfectedNeighbor
    refine List.any_eq_true.2 ⟨r, hs, ?_⟩
    simp [incrementDays_state, hinf]
  · rw [step_of_lt _ _ _ _ _ hday, stepBody_graph]
    unfold Simulation.stepGraph
    rw [commitRecoveries_data, if_pos hr]

/-! ## Witnesses: the hypothesised claim theorems at concrete inputs -/

/-- C1's theorem applied to `cfgMystery` and the two-node graph. -/
theorem c1_witness :
    cfgMystery.modelType ≠ "independent" ∧
    cfgMystery.modelType ≠ "dependent" ∧
    cfgMystery.modelType ≠ "superspreader_dynamic" ∧
    Simulation.step (fun _ => some 1) cfgMystery (fun _ => 0) (fun _ => 0)
        (Simulation.init gPair) =
      Simulation.step (fun _ => some 1)
        (withModelType cfgMystery "independent") (fun _ => 0) (fun _ => 0)
        (Simulation.init gPair) :=
  ⟨by decide, by decide, by decide,
    c1_unknown_model_falls_back (fun _ => some 1) cfgMystery (fun _ => 0)
      (fun _ => 0) (Simulation.init gPair) (by decide) (by decide)
      (by decide)⟩

/-- C5's theorem applied to the all-zero draw streams. -/
theorem c5_witness :
    (∀ (g : Graph) (m : ℕ),
      ((incrementDays g).data m).infection_state =
        (g.data m).infection_state) ∧
    ((Simulation.step (fun _ => some 1) cfgPath (fun _ => 0) (fun _ => 0)
        (Simulation.init pathGraph)).graph.data 1).infection_state =
      InfState.infected ∧
    ((Simulation.step (fun _ => some 1) cfgPath (fun _ => 0) (fun _ => 0)
        (Simulation.init pathGraph)).graph.data 2).infection_state =
      InfState.susceptible :=
  c5_snapshot_semantics (fun _ => some 1) (fun _ => 0) (fun _ => 0)
    (fun _ => le_refl 0) (fun _ => zero_lt_one)

/-- C6's theorem exercised on both conjuncts: a node with nonzero defenses
and zero infected neighbors gets probability exactly `0`, and a defense-free
node with one infected neighbor gets exactly the default
`base_prob_transmission`. -/
theorem c6_witness :
    infectedNeighborCount gDefendedNoInfected 0 = 0 ∧
    Independent.calculate_probability gDefendedNoInfected 0 cfgBare = 0 ∧
    infectedNeighborCount gOneInfectedNeighbor 0 = 1 ∧
    Independent.calculate_probability gOneInfectedNeighbor 0 cfgBare =
      baseProbOf cfgBare :=
  ⟨by decide,
    (c6_independent_base_cases gDefendedNoInfected 0 cfgBare).1 (by decide),
    by decide,
    (c6_independent_base_cases gOneInfectedNeighbor 0 cfgBare).2 rfl rfl
      (by norm_num [baseProbOf, SimConfig.params, SimConfig.modelConfig,
        cfgBare, emptyParams, emptyModelConfig])
      (by norm_num [baseProbOf, SimConfig.params, SimConfig.modelConfig,
        cfgBare, emptyParams, emptyModelConfig])
      (by decide)⟩

/-- C7's theorem applied on day 0 with a fresh cache (`last = -1`). -/
theorem c7_witness :
    Superspreader.determine_daily_status gPair cfgBare 0 0 []
      (fun _ => 0) = ([], 0) ∧
    (Superspreader.determine_daily_status gPair cfgBare 0 (-1) []
      (fun _ => 0)).2 = 0 ∧
    (Superspreader.determine_daily_status gPair cfgBare 0 (-1) []
      (fun _ => 0)).1.map Prod.fst = Superspreader.infectedNodes gPair ∧
    (Superspreader.determine_daily_status gPair cfgBare 0 (-1) []
      (fun _ => 0)).1.map Prod.snd =
      (List.range (Superspreader.infectedNodes gPair).length).map
        (fun _ => decide ((0 : ℚ) <
          Superspreader.pBecomesSuperspreader cfgBare)) :=
  c7_superspreader_daily_roll gPair cfgBare 0 (-1) [] (fun _ => 0)
    (fun _ => 0) (by decide)

/-- C10's theorem applied to a node one day short of recovery. -/
theorem c10_witness :
    0 ∈ recoveredToday (Simulation.init gAboutToRecover).graph
        (recoveryDurationOf cfgRecover) ∧
    ((incrementDays (Simulation.init gAboutToRecover).graph).data
        0).infection_state = InfState.infected ∧
    (∀ s : ℕ,
      0 ∈ (incrementDays (Simulation.init gAboutToRecover).graph).adj s →
      hasInfectedNeighbor
        (incrementDays (Simulation.init gAboutToRecover).graph) s =
        true) ∧
    ((Simulation.step (fun _ => some 1) cfgRecover (fun _ => 0)
        (fun _ => 0) (Simulation.init gAboutToRecover)).graph.data
        0).infection_state = InfState.recovered :=
  c10_transmits_on_recovery_day (fun _ => some 1) cfgRecover (fun _ => 0)
    (fun _ => 0) (Simulation.init gAboutToRecover) 0 (by decide)
    (by decide) (by decide) (by decide)

end SimDisease
